import Mathlib

/-
Verification of the occurrence model of glamkit-eventtools
(src/eventtools/models/occurrences.py).

Modelling conventions, used throughout:
* Dates are modelled as `Nat` ordinal days; times as `Nat` minutes of day
  (the code reads and formats times at hour:minute granularity).
* Python `datetime.datetime.combine(d, t)` is total on a date and a time but
  raises `TypeError` when either argument is `None` (or any non-date/non-time
  object); fallible computations are modelled in `Option`, with `none`
  standing for a raised exception.
* Nullable Django fields are `Option Nat`.  Python truthiness of `x or y`
  on date objects is `pyOr` (date objects are always truthy, so `or` only
  tests for `None`).
* Python 2 orders `None` below every date/time object; `pyLtOpt` models that
  three-way comparison on optional times, as used by `reason`.
-/

namespace Eventtools

/-- A combined date+time value, the result of `datetime.datetime.combine`.
`date` is an ordinal day, `time` minutes within the day. -/
structure DateTime where
  date : Nat
  time : Nat
deriving DecidableEq, Repr

/-- Python comparison of two `datetime` objects: lexicographic on
(date, time), as `cmp(a, b)` yields. -/
def DateTime.cmp (a b : DateTime) : Ordering :=
  if a.date < b.date then Ordering.lt
  else if b.date < a.date then Ordering.gt
  else if a.time < b.time then Ordering.lt
  else if b.time < a.time then Ordering.gt
  else Ordering.eq

/-- Strict `<` on combined datetimes, as a Bool. -/
def DateTime.ltb (a b : DateTime) : Bool :=
  a.date < b.date || (a.date = b.date && a.time < b.time)

/-- The owning event, as exposed by the generator (`generator.event`).
Django model equality compares primary keys; we carry the pk and a title. -/
structure Event where
  pk : Nat
  title : String
deriving DecidableEq, Repr

/-- An `EventVariation` record: the fields of it the occurrence model reads.
`reason` is consumed verbatim by `Occurrence.reason`; `title` may override
the event title in the merged view. -/
structure Variation where
  vreason : String
  title : Option String
deriving DecidableEq, Repr

/-- The stored state of an `OccurrenceBase` instance: its model fields, the
event of the generator (reached through `self.generator.event`), whether the
concrete event class was built with a `varied_by` attribute (so that the
`_varied_event` foreign key was injected), and the value of that foreign key. -/
structure OccurrenceBase where
  generator_event : Event
  supports_variation : Bool
  varied_event_fk : Option Variation
  unvaried_start_date : Option Nat
  unvaried_start_time : Option Nat
  unvaried_end_date : Option Nat
  unvaried_end_time : Option Nat
  varied_start_date : Option Nat
  varied_start_time : Option Nat
  varied_end_date : Option Nat
  varied_end_time : Option Nat
  cancelled : Bool
  hide_from_lists : Bool
deriving DecidableEq, Repr

/-- Python `datetime.datetime.combine(d, t)` on nullable arguments: raises
(`none`) when either is `None`. -/
def combineDT : Option Nat → Option Nat → Option DateTime
  | some d, some t => some ⟨d, t⟩
  | _, _ => none

/-- Python `x or y` on nullable date values: date objects are always truthy,
so the result is `x` unless `x` is `None`. -/
def pyOr : Option Nat → Option Nat → Option Nat
  | some x, _ => some x
  | none, y => y

/-- Python 2 `a < b` on optional time values: `None` sorts below every
time object, `None < None` is false. -/
def pyLtOpt : Option Nat → Option Nat → Bool
  | none, none => false
  | none, some _ => true
  | some _, none => false
  | some a, some b => a < b

namespace OccurrenceBase

/-- Source `_get_varied_start`: `datetime.combine(varied_start_date, varied_start_time)`. -/
def varied_start (o : OccurrenceBase) : Option DateTime :=
  combineDT o.varied_start_date o.varied_start_time

/-- Source `_get_varied_end`:
`datetime.combine(varied_end_date or varied_start_date, varied_end_time)`.
Only the date is defaulted; a `None` end time reaches `combine` and raises. -/
def varied_end (o : OccurrenceBase) : Option DateTime :=
  combineDT (pyOr o.varied_end_date o.varied_start_date) o.varied_end_time

/-- Source `_get_unvaried_start`: `datetime.combine(unvaried_start_date, unvaried_start_time)`. -/
def unvaried_start (o : OccurrenceBase) : Option DateTime :=
  combineDT o.unvaried_start_date o.unvaried_start_time

/-- Source `_get_unvaried_end`:
`datetime.combine(unvaried_end_date or unvaried_start_date, unvaried_end_time)`.
As with `varied_end`, only the date is defaulted. -/
def unvaried_end (o : OccurrenceBase) : Option DateTime :=
  combineDT (pyOr o.unvaried_end_date o.unvaried_start_date) o.unvaried_end_time

/-- Source `_get_varied_event`: `getattr(self, "_varied_event", None)` — `None`
when the class has no injected `_varied_event` attribute. -/
def varied_event (o : OccurrenceBase) : Option Variation :=
  if o.supports_variation then o.varied_event_fk else none

/-- The Python error values the model can raise. -/
inductive PyError where
  | attributeError (msg : String)
deriving DecidableEq, Repr

/-- Source `_set_varied_event`: stores the value when the `_varied_event` attribute
was injected (the event class has `varied_by`), otherwise raises
`AttributeError` and produces no changed occurrence. -/
def set_varied_event (o : OccurrenceBase) (v : Option Variation) :
    Except PyError OccurrenceBase :=
  if o.supports_variation then
    Except.ok { o with varied_event_fk := v }
  else
    Except.error (PyError.attributeError
      "You cannot set an event variation for an event class with no varied_by attribute.")

/-- Source `_is_moved`: `unvaried_start != varied_start or unvaried_end != varied_end`,
with Python evaluation order (the start accessors are computed first and may
raise; the end accessors are only computed when the starts agree). -/
def is_moved (o : OccurrenceBase) : Option Bool := do
  let us ← unvaried_start o
  let vs ← varied_start o
  if us ≠ vs then
    pure true
  else do
    let ue ← unvaried_end o
    let ve ← varied_end o
    pure (ue ≠ ve)

/-- Source `_is_varied`: `is_moved or cancelled`, short-circuiting on a raised
`is_moved` only through propagation. -/
def is_varied (o : OccurrenceBase) : Option Bool := do
  let m ← is_moved o
  pure (m || o.cancelled)

/-- Source `_start_date` (canonical): the raw `varied_start_date` field. -/
def start_date (o : OccurrenceBase) : Option Nat := o.varied_start_date

/-- Source `_start_time` (canonical): the raw `varied_start_time` field. -/
def start_time (o : OccurrenceBase) : Option Nat := o.varied_start_time

/-- Source `_end_date` (canonical): the raw `varied_end_date` field — no
defaulting, unlike `varied_end`. -/
def end_date (o : OccurrenceBase) : Option Nat := o.varied_end_date

/-- Source `_end_time` (canonical): the raw `varied_end_time` field. -/
def end_time (o : OccurrenceBase) : Option Nat := o.varied_end_time

/-- Source `__eq__`: `self.generator.event == other.generator.event and
self.original_start == other.original_start and self.original_end ==
other.original_end`, with Python short-circuiting: a differing event (or a
differing start) returns `False` before the later accessors are computed, and
a raising accessor propagates. -/
def eq (a b : OccurrenceBase) : Option Bool :=
  if a.generator_event = b.generator_event then do
    let sa ← unvaried_start a
    let sb ← unvaried_start b
    if sa ≠ sb then
      pure false
    else do
      let ea ← unvaried_end a
      let eb ← unvaried_end b
      pure (ea = eb)
  else
    some false

/-- Source `__cmp__`: `cmp(self.start, other.start)`, falling through to
`cmp(self.end, other.end)` only on a tie. -/
def cmp (a b : OccurrenceBase) : Option Ordering := do
  let sa ← varied_start a
  let sb ← varied_start b
  let rank := DateTime.cmp sa sb
  if rank = Ordering.eq then do
    let ea ← varied_end a
    let eb ← varied_end b
    pure (DateTime.cmp ea eb)
  else
    pure rank

end OccurrenceBase

/-- Two-digit zero padding, as `strftime` does for `%H` and `%M`. -/
def pad2 (n : Nat) : String :=
  if n < 10 then "0" ++ toString n else toString n

/-- Python `t.strftime("%H:%M")` on a time of `t` minutes within the day. -/
def strftimeHM (t : Nat) : String :=
  pad2 (t / 60) ++ ":" ++ pad2 (t % 60)

/-- Python `strftime` called on a nullable time: raises `AttributeError`
(`none`) when the value is `None`. -/
def strftimeHMOpt : Option Nat → Option String
  | some t => some (strftimeHM t)
  | none => none

namespace OccurrenceBase

/-- The `reason` property.  The reason of a varied event trumps all; then
cancellation; then the clause list is built with Python 2 comparisons on the
nullable time fields (`None` below every time), each clause formatting
`varied_*_time` with `strftime` (which raises on `None`), joined with a
comma and a space. -/
def reason (o : OccurrenceBase) : Option String :=
  match varied_event o with
  | some v => some v.vreason
  | none =>
    if o.cancelled then some "Cancelled"
    else
      let dateMsgs : List String :=
        if o.varied_start_date ≠ o.unvaried_start_date then ["new date"] else []
      let startMsgs : Option (List String) :=
        if pyLtOpt o.varied_start_time o.unvaried_start_time then
          (strftimeHMOpt o.varied_start_time).map
            (fun s => ["starts earlier at " ++ s])
        else if pyLtOpt o.unvaried_start_time o.varied_start_time then
          (strftimeHMOpt o.varied_start_time).map
            (fun s => ["starts later at " ++ s])
        else
          some []
      let endMsgs : Option (List String) :=
        if pyLtOpt o.varied_end_time o.unvaried_end_time then
          (strftimeHMOpt o.varied_end_time).map
            (fun s => ["ends earlier at " ++ s])
        else if pyLtOpt o.unvaried_end_time o.varied_end_time then
          (strftimeHMOpt o.varied_end_time).map
            (fun s => ["ends later at " ++ s])
        else
          some []
      match startMsgs, endMsgs with
      | some sm, some em =>
        some (String.intercalate ", " (dateMsgs ++ sm ++ em))
      | _, _ => none

/-- Modelled from the spec: `MergedObject(unvaried_event, varied_event)`
lives in the `utils` module, which is not part of this source; per the spec
it is a composite view in which variant fields take precedence where both
supply a value.  Only its `title` is read here. -/
def merged_title (o : OccurrenceBase) : String :=
  match varied_event o with
  | some v =>
    match v.title with
    | some t => t
    | none => o.generator_event.title
  | none => o.generator_event.title

/-- The minimal calendar-interchange record `as_icalendar` builds: a VEVENT
with a summary and start/end timestamps. -/
structure ICalEvent where
  summary : String
  dtstart : DateTime
  dtend : DateTime
deriving DecidableEq, Repr

/-- Source `as_icalendar`: summary from the title of the merged event,
`dtstart = combine(start_date, start_time)` and
`dtend = combine(end_date, end_time)` — the raw canonical fields, so an
absent `varied_end_date` reaches `combine` and raises. -/
def as_icalendar (o : OccurrenceBase) : Option ICalEvent := do
  let ds ← combineDT (start_date o) (start_time o)
  let de ← combineDT (end_date o) (end_time o)
  pure ⟨merged_title o, ds, de⟩

/-- Python `list.index(self)` over a generated occurrence list: the index of the
first element for which `element == self` holds under `__eq__`; a raising
comparison propagates, and exhaustion raises `ValueError` (both `none`). -/
def listIndex : List OccurrenceBase → OccurrenceBase → Option Nat
  | [], _ => none
  | x :: xs, o =>
    match eq x o with
    | none => none
    | some true => some 0
    | some false => (listIndex xs o).map (· + 1)

/-- Source `generated_id`: `daystart = self.start.replace(hour=0, minute=0)`, then
`self.generator.event.get_occurrences(daystart, daystart + timedelta(1))`
and the position of `self` in that list.  The `get_occurrences` method of the generator
is an external collaborator and is passed in as a function. -/
def generated_id (gen : DateTime → DateTime → List OccurrenceBase)
    (o : OccurrenceBase) : Option Nat := do
  let s ← varied_start o
  let daystart : DateTime := ⟨s.date, 0⟩
  listIndex (gen daystart ⟨s.date + 1, 0⟩) o

end OccurrenceBase

/-- A constructor keyword argument: `none` models an absent key, `some v`
a key present with (possibly `None`) value `v`, matching the
`kwargs.has_key` tests of `__init__`. -/
abbrev KW := Option (Option Nat)

/-- The back-fill loop body of `OccurrenceBase.__init__` for one
(unvaried, varied) key pair: when the varied key is absent it is set to the
value of the unvaried key when that key is present, else to `None`. -/
def kwBackfill (uv v : KW) : KW :=
  match v with
  | some x => some x
  | none =>
    match uv with
    | some x => some x
    | none => some none

/-- Django field initialisation from a keyword argument: the value when the
key is present, else the field default (`None` for these date/time fields). -/
def fieldOf (k : KW) : Option Nat :=
  match k with
  | some x => x
  | none => none

/-- Source `OccurrenceBase.__init__`: back-fills each absent `varied_*` keyword
from the corresponding `unvaried_*` keyword (or `None`), then initialises
the model fields.  No validation is performed: every combination of absent
keys constructs an instance. -/
def mkOccurrence (ev : Event) (sv : Bool)
    (uvsd uvst uved uvet vsd vst ved vet : KW) : OccurrenceBase :=
  { generator_event := ev
    supports_variation := sv
    varied_event_fk := none
    unvaried_start_date := fieldOf uvsd
    unvaried_start_time := fieldOf uvst
    unvaried_end_date := fieldOf uved
    unvaried_end_time := fieldOf uvet
    varied_start_date := fieldOf (kwBackfill uvsd vsd)
    varied_start_time := fieldOf (kwBackfill uvst vst)
    varied_end_date := fieldOf (kwBackfill uved ved)
    varied_end_time := fieldOf (kwBackfill uvet vet)
    cancelled := false
    hide_from_lists := false }

/-
Dynamic-attribute model of the paired property setters.  Python attributes
are untyped: assigning `self.varied_start_date = value.date` (no call
parentheses, as `_set_varied_start` does) stores the bound method object
itself, not a date.  `PyAttr` distinguishes the values such a slot can hold.
-/

/-- A value held by a date/time attribute slot of an occurrence instance. -/
inductive PyAttr where
  | pyNone
  | pyDate (d : Nat)
  | pyTime (t : Nat)
  | dateMethod (v : DateTime)
  | timeMethod (v : DateTime)
deriving DecidableEq, Repr

/-- The eight date/time attribute slots of an occurrence instance, untyped
as Python stores them. -/
structure OccAttrs where
  unvaried_start_date : PyAttr
  unvaried_start_time : PyAttr
  unvaried_end_date : PyAttr
  unvaried_end_time : PyAttr
  varied_start_date : PyAttr
  varied_start_time : PyAttr
  varied_end_date : PyAttr
  varied_end_time : PyAttr
deriving DecidableEq, Repr

namespace OccAttrs

/-- Python `datetime.datetime.combine` on attribute slots: defined only on an
actual date and an actual time, `TypeError` (`none`) otherwise — in
particular on a stored bound method. -/
def combineAttr : PyAttr → PyAttr → Option DateTime
  | PyAttr.pyDate d, PyAttr.pyTime t => some ⟨d, t⟩
  | _, _ => none

/-- Source `_set_varied_start`: `self.varied_start_date = value.date;
self.varied_start_time = value.time` — the bound methods, uncalled. -/
def set_varied_start (o : OccAttrs) (value : DateTime) : OccAttrs :=
  { o with varied_start_date := PyAttr.dateMethod value
           varied_start_time := PyAttr.timeMethod value }

/-- Source `_set_varied_end`: `self.varied_end_date = value.date;
self.varied_end_time = value.time` — again the uncalled bound methods. -/
def set_varied_end (o : OccAttrs) (value : DateTime) : OccAttrs :=
  { o with varied_end_date := PyAttr.dateMethod value
           varied_end_time := PyAttr.timeMethod value }

/-- Source `_set_unvaried_start`: `self.unvaried_start_date = value.date();
self.unvaried_start_time = value.time()` — the methods are called, so the
date and time values are stored. -/
def set_unvaried_start (o : OccAttrs) (value : DateTime) : OccAttrs :=
  { o with unvaried_start_date := PyAttr.pyDate value.date
           unvaried_start_time := PyAttr.pyTime value.time }

/-- Source `_set_unvaried_end`: `self.unvaried_end_date = value.date;
self.unvaried_end_time = value.time` — uncalled bound methods, like the
varied setters. -/
def set_unvaried_end (o : OccAttrs) (value : DateTime) : OccAttrs :=
  { o with unvaried_end_date := PyAttr.dateMethod value
           unvaried_end_time := PyAttr.timeMethod value }

/-- Source `_get_varied_start` over the untyped slots. -/
def get_varied_start (o : OccAttrs) : Option DateTime :=
  combineAttr o.varied_start_date o.varied_start_time

/-- Source `_get_unvaried_start` over the untyped slots. -/
def get_unvaried_start (o : OccAttrs) : Option DateTime :=
  combineAttr o.unvaried_start_date o.unvaried_start_time

end OccAttrs

/-
Theorems.  C1..C10 refer to the claims about the occurrence model; concrete
occurrences named `occCn...` are the inputs the claims are evaluated at.
-/

open OccurrenceBase

/-- An occurrence at day 100, 09:00 (540 minutes), with both end dates and
both end times absent. -/
def occC1a : OccurrenceBase :=
  { generator_event := ⟨1, "gig"⟩
    supports_variation := false
    varied_event_fk := none
    unvaried_start_date := some 100
    unvaried_start_time := some 540
    unvaried_end_date := none
    unvaried_end_time := none
    varied_start_date := some 100
    varied_start_time := some 540
    varied_end_date := none
    varied_end_time := none
    cancelled := false
    hide_from_lists := false }

/-- The same occurrence with both end times present (600 = 10:00) and the
end dates still absent. -/
def occC1b : OccurrenceBase :=
  { occC1a with unvaried_end_time := some 600, varied_end_time := some 600 }

/-- C1: the end accessors default only the date component.  With the end
time present and the end date absent, `unvaried_end` and `varied_end`
default the date to the start date; but with the end time absent they raise
(`none`) instead of defaulting the time to the start time (540), contrary to
the claim and to the help text of the end-time fields. -/
theorem end_accessors_default_date_only :
    unvaried_end occC1b = some ⟨100, 600⟩ ∧
    varied_end occC1b = some ⟨100, 600⟩ ∧
    unvaried_end occC1a = none ∧
    varied_end occC1a = none := by
  refine ⟨rfl, rfl, rfl, rfl⟩

/-- Back-filling an absent varied keyword stores exactly the value the
unvaried keyword would store. -/
theorem fieldOf_kwBackfill_none (uv : KW) :
    fieldOf (kwBackfill uv none) = fieldOf uv := by
  cases uv <;> rfl

/-- An occurrence constructed from only an unvaried start (day 100, 09:00),
with no end and no varied keywords. -/
def occC2 : OccurrenceBase :=
  mkOccurrence ⟨1, "gig"⟩ false (some (some 100)) (some (some 540))
    none none none none none none

/-- C2: construction with no varied keywords back-fills every varied field
from the corresponding unvaried field (absent when that is absent); but the
resulting occurrence does not have `is_moved = false` when the unvaried end
time is absent — `is_moved` raises (`none`) there, because the end accessors
do not default the absent end time. -/
theorem construction_backfill_and_is_moved :
    (∀ (ev : Event) (sv : Bool) (uvsd uvst uved uvet : KW),
      (mkOccurrence ev sv uvsd uvst uved uvet none none none none).varied_start_date =
        (mkOccurrence ev sv uvsd uvst uved uvet none none none none).unvaried_start_date ∧
      (mkOccurrence ev sv uvsd uvst uved uvet none none none none).varied_start_time =
        (mkOccurrence ev sv uvsd uvst uved uvet none none none none).unvaried_start_time ∧
      (mkOccurrence ev sv uvsd uvst uved uvet none none none none).varied_end_date =
        (mkOccurrence ev sv uvsd uvst uved uvet none none none none).unvaried_end_date ∧
      (mkOccurrence ev sv uvsd uvst uved uvet none none none none).varied_end_time =
        (mkOccurrence ev sv uvsd uvst uved uvet none none none none).unvaried_end_time) ∧
    is_moved occC2 = none := by
  constructor
  · intro ev sv uvsd uvst uved uvet
    exact ⟨fieldOf_kwBackfill_none uvsd, fieldOf_kwBackfill_none uvst,
      fieldOf_kwBackfill_none uved, fieldOf_kwBackfill_none uvet⟩
  · rfl

/-- An occurrence whose event class has no variation support. -/
def occC6 : OccurrenceBase :=
  { generator_event := ⟨3, "recital"⟩
    supports_variation := false
    varied_event_fk := none
    unvaried_start_date := some 200
    unvaried_start_time := some 480
    unvaried_end_date := some 200
    unvaried_end_time := some 510
    varied_start_date := some 200
    varied_start_time := some 480
    varied_end_date := some 200
    varied_end_time := some 510
    cancelled := false
    hide_from_lists := false }

/-- C6: on an occurrence whose event class lacks variation support, setting
the varied event raises `AttributeError`; no updated occurrence is produced
(so every field is left unchanged), and the assignment is never silently
ignored. -/
theorem set_varied_event_unsupported (o : OccurrenceBase) (v : Option Variation)
    (h : o.supports_variation = false) :
    set_varied_event o v = Except.error (PyError.attributeError
      "You cannot set an event variation for an event class with no varied_by attribute.") ∧
    ∀ o2 : OccurrenceBase, set_varied_event o v ≠ Except.ok o2 := by
  refine ⟨by simp [set_varied_event, h], fun o2 => by simp [set_varied_event, h]⟩

/-- Witness for C6 at a concrete unsupported occurrence. -/
theorem set_varied_event_unsupported_witness :
    set_varied_event occC6 (some ⟨"moved venue", none⟩) =
      Except.error (PyError.attributeError
        "You cannot set an event variation for an event class with no varied_by attribute.") :=
  (set_varied_event_unsupported occC6 (some ⟨"moved venue", none⟩) rfl).1

/-- An occurrence constructed with no keyword arguments at all. -/
def occC7 : OccurrenceBase :=
  mkOccurrence ⟨2, "talk"⟩ false none none none none none none none none

/-- C7 counterexample: constructing without a start date and start time is
not rejected — it returns an occurrence with every date/time field absent,
whose flag fields still read normally while the combined start accessor
raises only at read time. -/
theorem construction_without_start_succeeds :
    occC7 =
      { generator_event := ⟨2, "talk"⟩
        supports_variation := false
        varied_event_fk := none
        unvaried_start_date := none
        unvaried_start_time := none
        unvaried_end_date := none
        unvaried_end_time := none
        varied_start_date := none
        varied_start_time := none
        varied_end_date := none
        varied_end_time := none
        cancelled := false
        hide_from_lists := false } ∧
    occC7.cancelled = false ∧ unvaried_start occC7 = none := by
  refine ⟨rfl, rfl, rfl⟩

/-- C7 amended: construction without a start date or start time succeeds
and stores the start fields as absent (back-filling the varied fields to
absent); the failure is deferred to read time, where the combined start
accessors and `is_moved` raise. -/
theorem construction_without_start_defers_failure :
    ∀ (ev : Event) (sv : Bool) (uved uvet : KW),
      (mkOccurrence ev sv none none uved uvet none none none none).unvaried_start_date
        = none ∧
      (mkOccurrence ev sv none none uved uvet none none none none).unvaried_start_time
        = none ∧
      (mkOccurrence ev sv none none uved uvet none none none none).varied_start_date
        = none ∧
      (mkOccurrence ev sv none none uved uvet none none none none).varied_start_time
        = none ∧
      unvaried_start (mkOccurrence ev sv none none uved uvet none none none none)
        = none ∧
      varied_start (mkOccurrence ev sv none none uved uvet none none none none)
        = none ∧
      is_moved (mkOccurrence ev sv none none uved uvet none none none none)
        = none := by
  intro ev sv uved uvet
  exact ⟨rfl, rfl, rfl, rfl, rfl, rfl, rfl⟩

/-- The datetime value (day 100, 09:00) assigned through the setters. -/
def dC10 : DateTime := ⟨100, 540⟩

/-- An occurrence instance (attribute view) before any setter runs. -/
def occC10 : OccAttrs :=
  { unvaried_start_date := PyAttr.pyDate 100
    unvaried_start_time := PyAttr.pyTime 540
    unvaried_end_date := PyAttr.pyNone
    unvaried_end_time := PyAttr.pyNone
    varied_start_date := PyAttr.pyDate 100
    varied_start_time := PyAttr.pyTime 540
    varied_end_date := PyAttr.pyNone
    varied_end_time := PyAttr.pyNone }

/-- C10: the varied setters (and `_set_unvaried_end`) assign the uncalled
bound methods `value.date` and `value.time` into the date/time fields, so
reading `varied_start` back raises in `combine` instead of returning the
assigned datetime; only `_set_unvaried_start` calls the methods and
round-trips the value. -/
theorem varied_setters_store_bound_methods :
    (OccAttrs.set_varied_start occC10 dC10).varied_start_date
      = PyAttr.dateMethod dC10 ∧
    (OccAttrs.set_varied_start occC10 dC10).varied_start_time
      = PyAttr.timeMethod dC10 ∧
    OccAttrs.get_varied_start (OccAttrs.set_varied_start occC10 dC10) = none ∧
    (OccAttrs.set_varied_end occC10 dC10).varied_end_date
      = PyAttr.dateMethod dC10 ∧
    (OccAttrs.set_unvaried_end occC10 dC10).unvaried_end_date
      = PyAttr.dateMethod dC10 ∧
    OccAttrs.get_unvaried_start (OccAttrs.set_unvaried_start occC10 dC10)
      = some dC10 := by
  refine ⟨rfl, rfl, rfl, rfl, rfl, rfl⟩

/-- C3: the precedence of `reason`.  An attached varied event returns its
reason verbatim, whatever the cancellation flag and the dates; otherwise
cancellation returns "Cancelled", whatever the date drift; otherwise the
clause list is built from the date inequality and the time-of-day
comparisons, in order, joined with a comma and a space, empty when no
clause applies. -/
theorem reason_precedence :
    (∀ (o : OccurrenceBase) (v : Variation),
      varied_event o = some v → reason o = some v.vreason) ∧
    (∀ o : OccurrenceBase,
      varied_event o = none → o.cancelled = true → reason o = some "Cancelled") ∧
    (∀ (o : OccurrenceBase) (vst ust vet uet : Nat),
      varied_event o = none → o.cancelled = false →
      o.varied_start_time = some vst → o.unvaried_start_time = some ust →
      o.varied_end_time = some vet → o.unvaried_end_time = some uet →
      reason o = some (String.intercalate ", "
        ((if o.varied_start_date ≠ o.unvaried_start_date then ["new date"] else []) ++
         (if vst < ust then ["starts earlier at " ++ strftimeHM vst]
          else if ust < vst then ["starts later at " ++ strftimeHM vst]
          else []) ++
         (if vet < uet then ["ends earlier at " ++ strftimeHM vet]
          else if uet < vet then ["ends later at " ++ strftimeHM vet]
          else [])))) := by
  refine ⟨?_, ?_, ?_⟩
  · intro o v hve
    simp [reason, hve]
  · intro o hve hc
    simp [reason, hve, hc]
  · intro o vst ust vet uet hve hc h1 h2 h3 h4
    simp only [reason, hve, hc, h1, h2, h3, h4, pyLtOpt, strftimeHMOpt,
      Option.map_some, if_false, Bool.false_eq_true, decide_eq_true_eq]
    split_ifs <;> rfl

/-- A varied occurrence carrying a variation record, cancelled and moved. -/
def occC3a : OccurrenceBase :=
  { generator_event := ⟨7, "cabaret"⟩
    supports_variation := true
    varied_event_fk := some ⟨"special guest", none⟩
    unvaried_start_date := some 40
    unvaried_start_time := some 540
    unvaried_end_date := some 40
    unvaried_end_time := some 600
    varied_start_date := some 41
    varied_start_time := some 480
    varied_end_date := some 41
    varied_end_time := some 630
    cancelled := true
    hide_from_lists := false }

/-- A cancelled occurrence with no variation record and drifted dates. -/
def occC3b : OccurrenceBase :=
  { occC3a with supports_variation := false
                varied_event_fk := none
                cancelled := true }

/-- An occurrence moved from 09:00–10:00 to 08:00–10:30 on the same day. -/
def occC3c : OccurrenceBase :=
  { generator_event := ⟨7, "cabaret"⟩
    supports_variation := false
    varied_event_fk := none
    unvaried_start_date := some 40
    unvaried_start_time := some 540
    unvaried_end_date := some 40
    unvaried_end_time := some 600
    varied_start_date := some 40
    varied_start_time := some 480
    varied_end_date := some 40
    varied_end_time := some 630
    cancelled := false
    hide_from_lists := false }

/-- Witness for C3: the three precedence levels at concrete occurrences. -/
theorem reason_precedence_witness :
    reason occC3a = some "special guest" ∧
    reason occC3b = some "Cancelled" ∧
    reason occC3c = some "starts earlier at 08:00, ends later at 10:30" := by
  refine ⟨reason_precedence.1 occC3a ⟨"special guest", none⟩ rfl,
    reason_precedence.2.1 occC3b rfl rfl, ?_⟩
  have h := reason_precedence.2.2 occC3c 480 540 630 600 rfl rfl rfl rfl rfl rfl
  rw [h]
  rfl

/-- C4: `__eq__` holds exactly when the events of the two generators agree
and the combined unvaried starts and combined unvaried ends (end date
defaulted to the start date) agree; the varied fields and the cancellation
flag play no part. -/
theorem eq_iff_same_event_and_unvaried (a b : OccurrenceBase)
    (asd ast aet bsd bst bet : Nat)
    (ha1 : a.unvaried_start_date = some asd) (ha2 : a.unvaried_start_time = some ast)
    (ha3 : a.unvaried_end_time = some aet)
    (hb1 : b.unvaried_start_date = some bsd) (hb2 : b.unvaried_start_time = some bst)
    (hb3 : b.unvaried_end_time = some bet) :
    eq a b = some true ↔
      (a.generator_event = b.generator_event ∧
       unvaried_start a = unvaried_start b ∧
       unvaried_end a = unvaried_end b) := by
  have hsa : unvaried_start a = some ⟨asd, ast⟩ := by
    simp [unvaried_start, ha1, ha2, combineDT]
  have hsb : unvaried_start b = some ⟨bsd, bst⟩ := by
    simp [unvaried_start, hb1, hb2, combineDT]
  obtain ⟨ea, hea⟩ : ∃ ea, unvaried_end a = some ea := by
    rcases had : a.unvaried_end_date with _ | d
    · exact ⟨⟨asd, aet⟩, by simp [unvaried_end, pyOr, had, ha1, ha3, combineDT]⟩
    · exact ⟨⟨d, aet⟩, by simp [unvaried_end, pyOr, had, ha1, ha3, combineDT]⟩
  obtain ⟨eb, heb⟩ : ∃ eb, unvaried_end b = some eb := by
    rcases hbd : b.unvaried_end_date with _ | d
    · exact ⟨⟨bsd, bet⟩, by simp [unvaried_end, pyOr, hbd, hb1, hb3, combineDT]⟩
    · exact ⟨⟨d, bet⟩, by simp [unvaried_end, pyOr, hbd, hb1, hb3, combineDT]⟩
  by_cases hev : a.generator_event = b.generator_event
  · by_cases hs : (⟨asd, ast⟩ : DateTime) = ⟨bsd, bst⟩
    · simp [eq, hev, hsa, hsb, hea, heb, hs]
    · simp [eq, hev, hsa, hsb, hea, heb, hs]
  · simp [eq, hev]

/-- An occurrence with an absent unvaried end date (defaulted on read). -/
def occC4a : OccurrenceBase :=
  { generator_event := ⟨5, "opera"⟩
    supports_variation := false
    varied_event_fk := none
    unvaried_start_date := some 300
    unvaried_start_time := some 540
    unvaried_end_date := none
    unvaried_end_time := some 660
    varied_start_date := some 300
    varied_start_time := some 540
    varied_end_date := none
    varied_end_time := some 660
    cancelled := false
    hide_from_lists := false }

/-- The same identity with the end date stored explicitly, the varied
fields moved to another day, and the occurrence cancelled. -/
def occC4b : OccurrenceBase :=
  { occC4a with unvaried_end_date := some 300
                varied_start_date := some 310
                varied_start_time := some 600
                varied_end_date := some 310
                varied_end_time := some 720
                cancelled := true }

/-- Witness for C4: the two concrete occurrences are equal despite their
differing varied fields and cancellation flags. -/
theorem eq_iff_same_event_and_unvaried_witness :
    eq occC4a occC4b = some true ∧
    occC4a.varied_start_date ≠ occC4b.varied_start_date ∧
    occC4a.cancelled ≠ occC4b.cancelled := by
  refine ⟨(eq_iff_same_event_and_unvaried occC4a occC4b 300 540 660 300 540 660
    rfl rfl rfl rfl rfl rfl).mpr ⟨rfl, rfl, rfl⟩, by decide, by decide⟩

/-- Comparison `DateTime.cmp` returns `lt` exactly on the strict lexicographic order. -/
theorem DateTime.cmp_eq_lt (a b : DateTime) :
    DateTime.cmp a b = Ordering.lt ↔ DateTime.ltb a b = true := by
  cases a with
  | mk ad at2 =>
    cases b with
    | mk bd bt =>
      simp only [DateTime.cmp, DateTime.ltb]
      split_ifs <;> simp_all <;> omega

/-- Comparison `DateTime.cmp` returns `eq` exactly on equal datetimes. -/
theorem DateTime.cmp_eq_eq (a b : DateTime) :
    DateTime.cmp a b = Ordering.eq ↔ a = b := by
  cases a with
  | mk ad at2 =>
    cases b with
    | mk bd bt =>
      simp only [DateTime.cmp, DateTime.mk.injEq]
      split_ifs <;> simp_all <;> omega

/-- The strict order on datetimes is irreflexive. -/
theorem DateTime.ltb_irrefl (a : DateTime) : DateTime.ltb a a = false := by
  simp [DateTime.ltb]

/-- C5: `__cmp__` ranks occurrence `a` strictly before `b` exactly when the
varied start of `a` is lexicographically below that of `b`, or the varied
starts agree and the varied end of `a` is below that of `b`; on equal
varied starts the result is precisely the comparison of the varied ends. -/
theorem cmp_varied_start_then_end (a b : OccurrenceBase) (sa sb ea eb : DateTime)
    (hsa : varied_start a = some sa) (hsb : varied_start b = some sb)
    (hea : varied_end a = some ea) (heb : varied_end b = some eb) :
    (cmp a b = some Ordering.lt ↔
      (DateTime.ltb sa sb = true ∨ (sa = sb ∧ DateTime.ltb ea eb = true))) ∧
    (sa = sb → cmp a b = some (DateTime.cmp ea eb)) := by
  constructor
  · by_cases h : DateTime.cmp sa sb = Ordering.eq
    · have hss : sa = sb := (DateTime.cmp_eq_eq sa sb).mp h
      subst hss
      simp [OccurrenceBase.cmp, hsa, hsb, hea, heb, h, DateTime.cmp_eq_lt,
        DateTime.ltb_irrefl]
    · have hss : sa ≠ sb := fun hcon => h ((DateTime.cmp_eq_eq sa sb).mpr hcon)
      simp [OccurrenceBase.cmp, hsa, hsb, hea, heb, h, hss, DateTime.cmp_eq_lt]
  · intro hss
    simp [OccurrenceBase.cmp, hsa, hsb, hea, heb,
      (DateTime.cmp_eq_eq sa sb).mpr hss]

/-- An occurrence whose varied start is 09:00 on day 20. -/
def occC5a : OccurrenceBase :=
  { generator_event := ⟨8, "market"⟩
    supports_variation := false
    varied_event_fk := none
    unvaried_start_date := some 20
    unvaried_start_time := some 540
    unvaried_end_date := some 20
    unvaried_end_time := some 600
    varied_start_date := some 20
    varied_start_time := some 540
    varied_end_date := some 20
    varied_end_time := some 600
    cancelled := false
    hide_from_lists := false }

/-- An occurrence whose varied start is 10:00 on day 20. -/
def occC5b : OccurrenceBase :=
  { occC5a with varied_start_time := some 600, varied_end_time := some 660 }

/-- Witness for C5: the earlier concrete occurrence ranks strictly first. -/
theorem cmp_varied_start_then_end_witness :
    cmp occC5a occC5b = some Ordering.lt :=
  (cmp_varied_start_then_end occC5a occC5b ⟨20, 540⟩ ⟨20, 600⟩ ⟨20, 600⟩ ⟨20, 660⟩
    rfl rfl rfl rfl).1.mpr (Or.inl rfl)

/-- C8 amended: `as_icalendar` combines the raw canonical fields with no
end-date defaulting; whenever the varied end date is stored, its `dtstart`
is the canonical varied start and its `dtend` is the canonical varied end. -/
theorem as_icalendar_uses_raw_fields (o : OccurrenceBase) (sd st ed et : Nat)
    (h1 : o.varied_start_date = some sd) (h2 : o.varied_start_time = some st)
    (h3 : o.varied_end_date = some ed) (h4 : o.varied_end_time = some et) :
    as_icalendar o = some ⟨merged_title o, ⟨sd, st⟩, ⟨ed, et⟩⟩ ∧
    varied_start o = some ⟨sd, st⟩ ∧
    varied_end o = some ⟨ed, et⟩ := by
  refine ⟨?_, ?_, ?_⟩ <;>
    simp [as_icalendar, varied_start, varied_end, start_date, start_time,
      end_date, end_time, combineDT, pyOr, h1, h2, h3, h4]

/-- An occurrence with an absent varied end date but a present end time. -/
def occC8 : OccurrenceBase :=
  { generator_event := ⟨4, "film"⟩
    supports_variation := false
    varied_event_fk := none
    unvaried_start_date := some 50
    unvaried_start_time := some 540
    unvaried_end_date := none
    unvaried_end_time := some 600
    varied_start_date := some 50
    varied_start_time := some 540
    varied_end_date := none
    varied_end_time := some 600
    cancelled := false
    hide_from_lists := false }

/-- C8 counterexample: with the varied end date absent, the canonical
`varied_end` is defined (date defaulted to the start date) but
`as_icalendar` raises instead of producing that end timestamp. -/
theorem as_icalendar_missing_end_date :
    varied_end occC8 = some ⟨50, 600⟩ ∧ as_icalendar occC8 = none := by
  refine ⟨rfl, rfl⟩

/-- The occurrence of `occC8` with its end dates stored explicitly. -/
def occC8b : OccurrenceBase :=
  { occC8 with unvaried_end_date := some 50, varied_end_date := some 50 }

/-- Witness for the amended C8 at a concrete occurrence. -/
theorem as_icalendar_uses_raw_fields_witness :
    as_icalendar occC8b = some ⟨"film", ⟨50, 540⟩, ⟨50, 600⟩⟩ :=
  (as_icalendar_uses_raw_fields occC8b 50 540 50 600 rfl rfl rfl rfl).1

/-- Python `list.index` over a list that holds its first match after `pre`. -/
theorem listIndex_of_first_match (o : OccurrenceBase) :
    ∀ (pre : List OccurrenceBase) (w : OccurrenceBase) (post : List OccurrenceBase),
      (∀ x ∈ pre, eq x o = some false) → eq w o = some true →
      listIndex (pre ++ w :: post) o = some pre.length := by
  intro pre
  induction pre with
  | nil =>
    intro w post _ hw
    simp [listIndex, hw]
  | cons x xs ih =>
    intro w post hpre hw
    have hx : eq x o = some false := hpre x (List.mem_cons_self x xs)
    simp only [List.cons_append, listIndex, hx]
    have hrest := ih w post (fun y hy => hpre y (List.mem_cons_of_mem x hy)) hw
    simp only [List.append_eq] at hrest ⊢
    rw [hrest]
    rfl

/-- Python `list.index` raises when no element of the list matches. -/
theorem listIndex_all_false (o : OccurrenceBase) :
    ∀ lst : List OccurrenceBase, (∀ x ∈ lst, eq x o = some false) →
      listIndex lst o = none := by
  intro lst
  induction lst with
  | nil => intro _; rfl
  | cons x xs ih =>
    intro h
    simp only [listIndex, h x (List.mem_cons_self x xs)]
    rw [ih (fun y hy => h y (List.mem_cons_of_mem x hy))]
    rfl

/-- C9: when the generator regenerates the day of the canonical varied
start and this occurrence matches (under `__eq__`) the element at position
`pre.length` and none before it, `generated_id` returns that 0-based
position; when no element of the regenerated list matches, `generated_id`
raises a lookup error rather than returning an index. -/
theorem generated_id_position :
    (∀ (gen : DateTime → DateTime → List OccurrenceBase) (o : OccurrenceBase)
       (s : DateTime) (pre post : List OccurrenceBase) (w : OccurrenceBase),
      varied_start o = some s →
      gen ⟨s.date, 0⟩ ⟨s.date + 1, 0⟩ = pre ++ w :: post →
      (∀ x ∈ pre, eq x o = some false) →
      eq w o = some true →
      generated_id gen o = some pre.length) ∧
    (∀ (gen : DateTime → DateTime → List OccurrenceBase) (o : OccurrenceBase)
       (s : DateTime),
      varied_start o = some s →
      (∀ x ∈ gen ⟨s.date, 0⟩ ⟨s.date + 1, 0⟩, eq x o = some false) →
      generated_id gen o = none) := by
  constructor
  · intro gen o s pre post w hs hlist hpre hw
    simp only [generated_id, hs]
    show listIndex (gen ⟨s.date, 0⟩ ⟨s.date + 1, 0⟩) o = some pre.length
    rw [hlist]
    exact listIndex_of_first_match o pre w post hpre hw
  · intro gen o s hs hall
    simp only [generated_id, hs]
    show listIndex (gen ⟨s.date, 0⟩ ⟨s.date + 1, 0⟩) o = none
    exact listIndex_all_false o _ hall

/-- The first occurrence of day 7 (09:00). -/
def occC9a : OccurrenceBase :=
  { generator_event := ⟨6, "show"⟩
    supports_variation := false
    varied_event_fk := none
    unvaried_start_date := some 7
    unvaried_start_time := some 540
    unvaried_end_date := some 7
    unvaried_end_time := some 630
    varied_start_date := some 7
    varied_start_time := some 540
    varied_end_date := some 7
    varied_end_time := some 630
    cancelled := false
    hide_from_lists := false }

/-- The second occurrence of day 7 (10:00). -/
def occC9b : OccurrenceBase :=
  { occC9a with unvaried_start_time := some 600
                unvaried_end_time := some 660
                varied_start_time := some 600
                varied_end_time := some 660 }

/-- A generator regenerating the two occurrences of day 7, in order. -/
def genC9 : DateTime → DateTime → List OccurrenceBase :=
  fun _ _ => [occC9a, occC9b]

/-- A generator producing no occurrence at all for any range. -/
def genC9empty : DateTime → DateTime → List OccurrenceBase :=
  fun _ _ => []

/-- Witness for C9: the second concrete occurrence of the day gets id 1,
and against an empty regeneration the lookup raises. -/
theorem generated_id_position_witness :
    generated_id genC9 occC9b = some 1 ∧
    generated_id genC9empty occC9b = none := by
  constructor
  · exact generated_id_position.1 genC9 occC9b ⟨7, 600⟩ [occC9a] [] occC9b
      rfl rfl (by intro x hx; rw [List.mem_singleton] at hx; subst hx; rfl) rfl
  · exact generated_id_position.2 genC9empty occC9b ⟨7, 600⟩ rfl
      (by intro x hx; exact absurd hx (List.not_mem_nil x))

end Eventtools
